import Mathlib

/-!
Verification of the video-utils command-line utilities: a shallow embedding
of the pure logic of `overlay_image.py` and `concatenate_videos.py`
(filter-graph construction, time parsing, position resolution, file
discovery, concat-list building, and the overlay tool's top-level control
flow), with theorems settling the specification's claims about them.

Python floats are modelled as exact decimal numbers (an integer mantissa
over a power of ten): every value this code produces from its inputs is a
decimal (digit strings combined with addition, integer scaling and division
by powers of ten), and every concrete value the claims mention (whole
seconds, halves, tenths) is represented exactly in binary64, so the decimal
model and the Python runtime agree on them.
-/

namespace VideoUtils

/-- An exact decimal number num / 10 ^ exp: the model of the Python float
values arising in this code. -/
structure Dec where
  num : Int
  exp : Nat
  deriving DecidableEq, Repr

/-- The decimal a ≤ b, compared after clearing denominators. -/
def Dec.le (a b : Dec) : Prop := a.num * 10 ^ b.exp ≤ b.num * 10 ^ a.exp

/-- The decimal a < b, compared after clearing denominators. -/
def Dec.lt (a b : Dec) : Prop := a.num * 10 ^ b.exp < b.num * 10 ^ a.exp

instance (a b : Dec) : Decidable (a.le b) := inferInstanceAs (Decidable (_ ≤ _))

instance (a b : Dec) : Decidable (a.lt b) := inferInstanceAs (Decidable (_ < _))

/-- Decimal addition, on the common denominator. -/
def Dec.add (a b : Dec) : Dec :=
  ⟨a.num * 10 ^ (max a.exp b.exp - a.exp) + b.num * 10 ^ (max a.exp b.exp - b.exp),
    max a.exp b.exp⟩

/-- A decimal scaled by an integer (exact, as in binary64 for these sizes). -/
def Dec.scaleInt (k : Int) (a : Dec) : Dec := ⟨a.num * k, a.exp⟩

/-- A decimal negated. -/
def Dec.neg (a : Dec) : Dec := ⟨-a.num, a.exp⟩

/-- A decimal multiplied by 10 ^ e for an integer e (float exponents). -/
def Dec.mulPow10 (a : Dec) (e : Int) : Dec :=
  match e with
  | .ofNat n => ⟨a.num * 10 ^ n, a.exp⟩
  | .negSucc n => ⟨a.num, a.exp + (n + 1)⟩

/-- A decimal divided by 100 (exact, as the percentages here are). -/
def Dec.div100 (a : Dec) : Dec := ⟨a.num, a.exp + 2⟩

/-- Modelled from Python float formatting (str / f-string interpolation) for
values whose decimal expansion terminates, as all values here do: sign,
integer part, a point, the fraction digits without trailing zeros, a lone 0
after the point for whole values. Exponent notation for extreme magnitudes
and the sign of negative zero are not modelled. -/
def Dec.repr (d : Dec) : String :=
  let sgn := if d.num < 0 then "-" else ""
  let a := d.num.natAbs
  let p := 10 ^ d.exp
  let digits := Nat.toDigits 10 (a % p)
  let padded := List.replicate (d.exp - digits.length) '0' ++ digits
  let stripped := (padded.reverse.dropWhile (· == '0')).reverse
  sgn ++ toString (a / p) ++ "." ++ (if stripped.isEmpty then "0" else String.mk stripped)

/-- Python truthiness of an optional string argument: None and the empty
string are falsy, every other string is truthy. -/
def truthy : Option String → Bool
  | none => false
  | some s => !s.isEmpty

/-- A digit list, most significant first, read as a natural number. -/
def digitsToNat (ds : List Char) : Nat :=
  ds.foldl (fun a c => a * 10 + (c.toNat - 48)) 0

/-- Modelled from the Python standard library (not part of this repository):
the exponent of a float literal after the letter e, an optional sign and
digits that must use up the whole rest of the input. -/
def parseExponent (cs : List Char) : Option Int :=
  let sr : Int × List Char :=
    match cs with
    | '+' :: rest => (1, rest)
    | '-' :: rest => (-1, rest)
    | _ => (1, cs)
  let ds := sr.2.takeWhile Char.isDigit
  let r2 := sr.2.dropWhile Char.isDigit
  if ds.isEmpty || !r2.isEmpty then none
  else some (sr.1 * (digitsToNat ds : Int))

/-- Modelled from the Python standard library float constructor on decimal
literals: integer digits, an optional point with fraction digits (at least
one digit overall), and an optional exponent. The value is the exact
decimal; inf, nan and underscore separators are not modelled. -/
def pyFloatCore (cs : List Char) : Option Dec :=
  let ip := cs.takeWhile Char.isDigit
  let r1 := cs.dropWhile Char.isDigit
  let fr : List Char × List Char :=
    match r1 with
    | '.' :: rest => (rest.takeWhile Char.isDigit, rest.dropWhile Char.isDigit)
    | _ => ([], r1)
  if ip.isEmpty && fr.1.isEmpty then none
  else
    let mant : Dec := ⟨(digitsToNat ip * 10 ^ fr.1.length + digitsToNat fr.1 : Nat), fr.1.length⟩
    match fr.2 with
    | [] => some mant
    | 'e' :: rest => (parseExponent rest).map mant.mulPow10
    | 'E' :: rest => (parseExponent rest).map mant.mulPow10
    | _ => none

/-- Modelled from the Python standard library: float(s) strips surrounding
whitespace and accepts an optional sign before the decimal core. -/
def pyFloat (s : String) : Option Dec :=
  let cs := ((s.toList.dropWhile Char.isWhitespace).reverse.dropWhile Char.isWhitespace).reverse
  match cs with
  | '+' :: rest => pyFloatCore rest
  | '-' :: rest => (pyFloatCore rest).map Dec.neg
  | rest => pyFloatCore rest

/-- Python str.split with a one-character separator: splitting the empty
string gives one empty part, and n separators give n + 1 parts. -/
def splitOnChar (sep : Char) : List Char → List (List Char)
  | [] => [[]]
  | c :: rest =>
    let r := splitOnChar sep rest
    if c == sep then [] :: r
    else
      match r with
      | [] => [[c]]
      | h :: t => (c :: h) :: t

/-- splitOnChar lifted to strings, as the Python code splits time strings. -/
def pySplit (s : String) (sep : Char) : List String :=
  (splitOnChar sep s.toList).map String.mk

/-- parse_time_to_seconds from overlay_image.py: split on the colon; three
parts are read as hours, minutes, seconds, two parts as minutes, seconds, and
any other part count takes just the first part (the code's else branch). A
component Python float() rejects raises ValueError, modelled as none. -/
def parse_time_to_seconds (time_str : String) : Option Dec :=
  match pySplit time_str ':' with
  | [h, m, s] => do
    let hv ← pyFloat h
    let mv ← pyFloat m
    let sv ← pyFloat s
    pure (((Dec.scaleInt 3600 hv).add (Dec.scaleInt 60 mv)).add sv)
  | [m, s] => do
    let mv ← pyFloat m
    let sv ← pyFloat s
    pure ((Dec.scaleInt 60 mv).add sv)
  | p :: _ => pyFloat p
  | [] => none

/-- get_position_filter from overlay_image.py: the preset-to-coordinates
dictionary, with dict.get falling back to the top-right entry for a key that
is not in the dictionary. -/
def get_position_filter (position : String) (offset_x offset_y : Int) : String :=
  if position = "top-left" then toString offset_x ++ ":" ++ toString offset_y
  else if position = "top-right" then
    "main_w-overlay_w-" ++ toString offset_x ++ ":" ++ toString offset_y
  else if position = "bottom-left" then
    toString offset_x ++ ":main_h-overlay_h-" ++ toString offset_y
  else if position = "bottom-right" then
    "main_w-overlay_w-" ++ toString offset_x ++ ":main_h-overlay_h-" ++ toString offset_y
  else if position = "center" then "(main_w-overlay_w)/2:(main_h-overlay_h)/2"
  else if position = "custom" then toString offset_x ++ ":" ++ toString offset_y
  else "main_w-overlay_w-" ++ toString offset_x ++ ":" ++ toString offset_y

/-- Python str.join with a separator, structurally. -/
def joinSep (sep : String) : List String → String
  | [] => ""
  | [x] => x
  | x :: xs => x ++ sep ++ joinSep sep xs

/-- The arguments of overlay_image_on_video that shape the filter graph,
with the defaults of the Python signature left to the caller. -/
structure OverlayArgs where
  position : String
  scale : Option String
  opacity : Dec
  offset_x : Int
  offset_y : Int
  start_time : Option String
  duration : Option String
  deriving DecidableEq

/-- The scale_filter string of overlay_image_on_video: a string ending in a
percent sign becomes a multiplicative width/height expression with the
factor float(scale[:-1]) / 100, anything else passes through literally. -/
def scale_filter (scale : String) : Option String :=
  if scale.toList.getLast? == some '%' then
    (pyFloat (String.mk scale.toList.dropLast)).map fun f =>
      "scale=iw*" ++ f.div100.repr ++ ":ih*" ++ f.div100.repr
  else some ("scale=" ++ scale)

/-- The intermediate values of the filter construction in
overlay_image_on_video: the filter_parts list, the overlay_input tag after
the scale and opacity steps, the position, the enable options, and the final
overlay segment. -/
structure FilterBuild where
  filter_parts : List String
  overlay_input : String
  position_filter : String
  overlay_options : List String
  overlay_filter : String
  deriving DecidableEq

/-- The scale step of overlay_image_on_video (the if scale block): the
filter parts it contributes and the overlay_input tag after it. A none
models float() raising on a malformed percentage. -/
def scaleStepOf (a : OverlayArgs) : Option (List String × String) :=
  match a.scale with
  | some s =>
    if s.isEmpty then some ([], "[1:v]")
    else (scale_filter s).map fun sf => (["[1:v]" ++ sf ++ "[scaled]"], "[scaled]")
  | none => some ([], "[1:v]")

/-- The overlay_options list of overlay_image_on_video: the gte clause when
a start time is given, then the between clause when a duration is given as
well. A none models float() raising inside parse_time_to_seconds. -/
def overlay_options_of (a : OverlayArgs) : Option (List String) :=
  let o1opt : Option (List String) :=
    if truthy a.start_time then
      (parse_time_to_seconds (a.start_time.getD "")).map fun t =>
        ["enable='gte(t," ++ t.repr ++ ")'"]
    else some []
  match o1opt with
  | none => none
  | some o1 =>
    if truthy a.duration && truthy a.start_time then
      match parse_time_to_seconds (a.start_time.getD ""),
          parse_time_to_seconds (a.duration.getD "") with
      | some st, some du =>
        some (o1 ++ ["enable='between(t," ++ st.repr ++ "," ++ (st.add du).repr ++ ")'"])
      | _, _ => none
    else some o1

/-- The rest of the filter construction, once the scale step and the enable
options are known: the opacity step, the position, the final overlay
segment, and the assembled parts list. -/
def mkBuild (a : OverlayArgs) (parts1 : List String) (input1 : String)
    (overlay_options : List String) : FilterBuild :=
  let po : List String × String :=
    if a.opacity.lt ⟨1, 0⟩ then
      if truthy a.scale then
        (parts1 ++ ["[scaled]format=rgba,colorchannelmixer=aa=" ++ a.opacity.repr ++ "[transparent]"],
          "[transparent]")
      else
        (parts1 ++ ["[1:v]format=rgba,colorchannelmixer=aa=" ++ a.opacity.repr ++ "[transparent]"],
          "[transparent]")
    else (parts1, input1)
  let pos := get_position_filter a.position a.offset_x a.offset_y
  let base := "[0:v]" ++ po.2 ++ "overlay=" ++ pos
  let overlay_filter :=
    if overlay_options.isEmpty then base
    else base ++ ":" ++ joinSep ":" overlay_options
  ⟨po.1 ++ [overlay_filter], po.2, pos, overlay_options, overlay_filter⟩

/-- The filter construction of overlay_image_on_video, assembled from its
steps in the code's order; none models a ValueError escaping from float()
inside the construction. -/
def build_filter (a : OverlayArgs) : Option FilterBuild :=
  match scaleStepOf a, overlay_options_of a with
  | some (parts1, input1), some overlay_options =>
    some (mkBuild a parts1 input1 overlay_options)
  | _, _ => none

/-- The filter_complex string of overlay_image_on_video: the filter parts
joined with semicolons. -/
def filter_complex (a : OverlayArgs) : Option String :=
  (build_filter a).map fun b => joinSep ";" b.filter_parts

/-- Python str.lower, character by character (ASCII case mapping, which
covers every extension and name the tools compare). -/
def pyLower (s : String) : String := String.mk (s.toList.map Char.toLower)

/-- Modelled from Python pathlib.PurePath.suffix on a file name: the part
from the last dot on, empty when the dot is the first or absent, or when
the name ends in the dot. -/
def pySuffix (name : String) : String :=
  let cs := name.toList
  let rev := cs.reverse
  match rev.findIdx? (· == '.') with
  | some j => if 0 < j ∧ j < cs.length - 1 then String.mk (rev.take (j + 1)).reverse else ""
  | none => ""

/-- Lexicographic comparison of character lists by code point, as Python
compares strings. -/
def charListLe : List Char → List Char → Bool
  | [], _ => true
  | _ :: _, [] => false
  | a :: as, b :: bs =>
    if a.toNat < b.toNat then true
    else if b.toNat < a.toNat then false
    else charListLe as bs

/-- Insert into a sorted list, before the first element it is ≤ to, so that
sorting with it is stable like Python list.sort. -/
def insertSorted (le : α → α → Bool) (x : α) : List α → List α
  | [] => [x]
  | y :: ys => if le x y then x :: y :: ys else y :: insertSorted le x ys

/-- A stable insertion sort: the model of Python list.sort with a key. -/
def sortByLe (le : α → α → Bool) : List α → List α
  | [] => []
  | x :: xs => insertSorted le x (sortByLe le xs)

/-- One directory entry as the discovery code observes it: its final name
component, whether it is a regular file, and its stat timestamps. -/
structure DirEntry where
  name : String
  is_file : Bool
  ctime : Int
  mtime : Int
  deriving DecidableEq

/-- The state of the filesystem at the folder path the tool was given:
whether the path exists, whether it is a directory, and its entries in
filesystem enumeration order. -/
structure Folder where
  path_exists : Bool
  is_dir : Bool
  entries : List DirEntry
  deriving DecidableEq

/-- The exceptions find_mp4_files raises, with their message text; the two
ValueError cases (no files found, invalid sort method) are told apart by the
message exactly as a caller of the Python code would see them. -/
inductive PyError
  | fileNotFound (msg : String)
  | notADirectory (msg : String)
  | valueError (msg : String)
  deriving DecidableEq

deriving instance DecidableEq for Except

/-- find_mp4_files from concatenate_videos.py: existence check, directory
check, case-insensitive .mp4 filter over the entries, empty check, then the
sort dispatch, which raises on an unknown method only after all of those. -/
def find_mp4_files (folder_path : String) (folder : Folder) (sort_method : String) :
    Except PyError (List DirEntry) :=
  if !folder.path_exists then
    .error (.fileNotFound ("Folder does not exist: " ++ folder_path))
  else if !folder.is_dir then
    .error (.notADirectory ("Path is not a directory: " ++ folder_path))
  else
    let mp4_files := folder.entries.filter fun e => e.is_file && pyLower (pySuffix e.name) == ".mp4"
    if mp4_files.isEmpty then
      .error (.valueError ("No MP4 files found in folder: " ++ folder_path))
    else if sort_method = "alphabetical" then
      .ok (sortByLe (fun x y => charListLe (pyLower x.name).toList (pyLower y.name).toList) mp4_files)
    else if sort_method = "date_created" then
      .ok (sortByLe (fun x y => decide (x.ctime ≤ y.ctime)) mp4_files)
    else if sort_method = "date_modified" then
      .ok (sortByLe (fun x y => decide (x.mtime ≤ y.mtime)) mp4_files)
    else .error (.valueError ("Invalid sort method: " ++ sort_method))

/-- A character-for-character replace: the backslash-to-slash pass of
create_concat_file. -/
def replaceChar (a b : Char) (s : String) : String :=
  String.mk (s.toList.map fun c => if c == a then b else c)

/-- The quote-escaping pass of create_concat_file: each single quote becomes
a backslash and the quote. -/
def escapeQuotes (s : String) : String :=
  String.mk (s.toList.flatMap fun c => if c == '\'' then ['\\', c] else [c])

/-- create_concat_file from concatenate_videos.py, as the text written to
the list file: one line per file in the given order, the resolved absolute
path with backslashes turned to forward slashes and single quotes escaped,
wrapped in a quoted file directive. The model takes each entry's resolved
absolute path as a string. -/
def create_concat_content (abs_paths : List String) : String :=
  joinSep "" (abs_paths.map fun p =>
    "file '" ++ escapeQuotes (replaceChar '\\' '/' p) ++ "'\n")

/-- What one run of the overlay tool observes of its environment: whether
the ffmpeg probe succeeds, whether the two input files exist, their
suffixes, and whether the ffmpeg overlay invocation itself succeeds. -/
structure OverlayEnv where
  ffmpeg_available : Bool
  video_exists : Bool
  image_exists : Bool
  video_suffix : String
  image_suffix : String
  overlay_ok : Bool
  deriving DecidableEq

/-- An external child process spawned during a tool run. -/
inductive Event
  | spawn (cmd : String)
  deriving DecidableEq

/-- check_ffmpeg from overlay_image.py: it always spawns the version probe,
and reports whether that succeeded. -/
def check_ffmpeg (env : OverlayEnv) : List Event × Bool :=
  ([.spawn "ffmpeg -version"], env.ffmpeg_available)

/-- The allowed video extensions of validate_files. -/
def video_extensions : List String :=
  [".mp4", ".avi", ".mov", ".mkv", ".webm", ".flv", ".wmv", ".m4v"]

/-- The allowed image extensions of validate_files. -/
def image_extensions : List String :=
  [".png", ".jpg", ".jpeg", ".gif", ".bmp", ".tiff", ".webp"]

/-- validate_files from overlay_image.py as a predicate: both files exist
and both lowercased suffixes are allowed (it raises otherwise, which main
catches and turns into exit code 1). -/
def validate_files_ok (env : OverlayEnv) : Bool :=
  env.video_exists && env.image_exists &&
    video_extensions.contains (pyLower env.video_suffix) &&
    image_extensions.contains (pyLower env.image_suffix)

/-- The overlay tool's main from argument validation on: the child processes
spawned, in order, and the process exit code. Opacity validation failure
exits 1 before the ffmpeg probe; a missing ffmpeg exits 1 after the probe;
file validation errors are caught and exit 1; a ValueError from float()
during filter construction is caught and exits 1 before the overlay
invocation; otherwise ffmpeg runs once and the exit code reports its
success. Output-path handling between these steps spawns nothing and is
elided. -/
def main_run (a : OverlayArgs) (env : OverlayEnv) : List Event × Nat :=
  if ¬(Dec.le ⟨0, 0⟩ a.opacity ∧ Dec.le a.opacity ⟨1, 0⟩) then ([], 1)
  else
    let pr := check_ffmpeg env
    if !pr.2 then (pr.1, 1)
    else if !validate_files_ok env then (pr.1, 1)
    else
      match filter_complex a with
      | none => (pr.1, 1)
      | some fc => (pr.1 ++ [.spawn ("ffmpeg overlay " ++ fc)], if env.overlay_ok then 0 else 1)

/-- The time parser exactly as the claim describes it: three numeric
components are hours, minutes, seconds, two are minutes, seconds, one is
seconds, and any other component count (or non-numeric component) fails. -/
def parse_time_claimRef (s : String) : Option Dec :=
  match pySplit s ':' with
  | [h, m, sec] => do
    let hv ← pyFloat h
    let mv ← pyFloat m
    let sv ← pyFloat sec
    pure (((Dec.scaleInt 3600 hv).add (Dec.scaleInt 60 mv)).add sv)
  | [m, sec] => do
    let mv ← pyFloat m
    let sv ← pyFloat sec
    pure ((Dec.scaleInt 60 mv).add sv)
  | [sec] => pyFloat sec
  | _ => none

/-- The time parser as the amended claim describes it: three components are
hours, minutes, seconds, two are minutes, seconds, and any other component
count takes only the first component, ignoring the rest. -/
def parse_time_amendedRef (s : String) : Option Dec :=
  match pySplit s ':' with
  | [h, m, sec] => do
    let hv ← pyFloat h
    let mv ← pyFloat m
    let sv ← pyFloat sec
    pure (((Dec.scaleInt 3600 hv).add (Dec.scaleInt 60 mv)).add sv)
  | [m, sec] => do
    let mv ← pyFloat m
    let sv ← pyFloat sec
    pure ((Dec.scaleInt 60 mv).add sv)
  | ps => pyFloat (ps.headD "")

/-- One concat-list line as the claim describes it: the path transformed in
a single character pass, every backslash to a forward slash and every single
quote to a backslash-escaped quote, wrapped in a quoted file directive. -/
def concatLineSpec (p : String) : String :=
  "file '" ++
    String.mk (p.toList.flatMap fun c =>
      if c == '\\' then ['/'] else if c == '\'' then ['\\', '\''] else [c]) ++
    "'\n"

/-- Sanity of the float model against Python float(): plain integers,
whitespace, signs and exponents parse to their exact values, and malformed
text is rejected. -/
theorem pyFloat_evals :
    pyFloat "50" = some ⟨50, 0⟩ ∧ pyFloat " -1.5e2 " = some ⟨-1500, 1⟩ ∧
      pyFloat "abc" = none ∧ pyFloat "" = none := by decide

/-- Sanity of the float formatting model against Python str(): whole values
keep one zero after the point, fractions drop trailing zeros, negatives
carry the sign. -/
theorem dec_repr_evals :
    Dec.repr ⟨10, 0⟩ = "10.0" ∧ Dec.repr ⟨50, 2⟩ = "0.5" ∧ Dec.repr ⟨7, 1⟩ = "0.7" ∧
      Dec.repr ⟨-5, 1⟩ = "-0.5" := by decide

/-- Sanity of the suffix model against pathlib: an upper-case extension is
kept, a leading or trailing dot gives no suffix. -/
theorem pySuffix_evals :
    pySuffix "Movie.MP4" = ".MP4" ∧ pySuffix ".hidden" = "" ∧ pySuffix "file." = "" := by
  decide

/-- Whole-graph evaluations of the builder on the spec's scenarios: the
timed overlay, the scaled half-size semi-transparent overlay, and the
unscaled semi-transparent overlay. -/
theorem filter_complex_evals :
    filter_complex ⟨"top-right", none, ⟨1, 0⟩, 10, 10, some "00:00:10", some "00:00:30"⟩ =
        some ("[0:v][1:v]overlay=main_w-overlay_w-10:10:" ++
          "enable='gte(t,10.0)':enable='between(t,10.0,40.0)'") ∧
      filter_complex ⟨"center", some "50%", ⟨7, 1⟩, 10, 10, none, none⟩ =
        some ("[1:v]scale=iw*0.5:ih*0.5[scaled];" ++
          "[scaled]format=rgba,colorchannelmixer=aa=0.7[transparent];" ++
          "[0:v][transparent]overlay=(main_w-overlay_w)/2:(main_h-overlay_h)/2") ∧
      filter_complex ⟨"top-right", none, ⟨7, 1⟩, 10, 10, none, none⟩ =
        some ("[1:v]format=rgba,colorchannelmixer=aa=0.7[transparent];" ++
          "[0:v][transparent]overlay=main_w-overlay_w-10:10") := by
  refine ⟨by decide, by decide, by decide⟩

/-- A successful run of the overlay tool spawns exactly the ffmpeg probe
and then the single overlay invocation, and exits 0. -/
theorem main_run_success_eval :
    main_run ⟨"top-right", none, ⟨1, 0⟩, 10, 10, none, none⟩
      ⟨true, true, true, ".mp4", ".png", true⟩ =
      ([.spawn "ffmpeg -version",
        .spawn "ffmpeg overlay [0:v][1:v]overlay=main_w-overlay_w-10:10"], 0) := by decide

/-- Discovery on a mixed directory: the mp4 matching is case-insensitive,
the sort is alphabetical on the lowercased name, non-matching entries drop
out. -/
theorem find_mp4_files_eval :
    find_mp4_files "d"
        ⟨true, true, [⟨"b.mp4", true, 0, 0⟩, ⟨"a.MP4", true, 1, 1⟩, ⟨"c.txt", true, 2, 2⟩]⟩
        "alphabetical" =
      .ok [⟨"a.MP4", true, 1, 1⟩, ⟨"b.mp4", true, 0, 0⟩] := by decide

/-- The concat list on concrete paths: backslashes become slashes and a
quote inside a path is escaped. -/
theorem create_concat_content_eval :
    create_concat_content ["C:\\v\\a.mp4", "/home/o'brien/b.mp4"] =
      "file 'C:/v/a.mp4'\nfile '/home/o\\'brien/b.mp4'\n" := by decide

/-- C2 counterexample: the claim's reference parser fails on the
four-component string 1:2:3:4, but parse_time_to_seconds returns 1.0 there
(the code's else branch takes the first component), so the parser does not
equal the claim's reference definition. -/
theorem parse_time_differs_from_claim_ref :
    parse_time_to_seconds "1:2:3:4" = some ⟨1, 0⟩ ∧
      parse_time_claimRef "1:2:3:4" = none := by
  constructor <;> decide

/-- C2 (amended): the time parser equals the amended reference definition —
three numeric components H:M:S give H*3600 + M*60 + S, two give M*60 + S,
and any other component count takes only the first component, ignoring the
rest (failing only when a used component is non-numeric); the concrete
values of the claim hold as stated. -/
theorem parse_time_matches_amended_ref :
    (∀ s, parse_time_to_seconds s = parse_time_amendedRef s) ∧
      parse_time_to_seconds "01:02:03" = some ⟨3723, 0⟩ ∧
      parse_time_to_seconds "02:03" = some ⟨123, 0⟩ ∧
      parse_time_to_seconds "45" = some ⟨45, 0⟩ ∧
      parse_time_to_seconds "1:2:3:4" = some ⟨1, 0⟩ := by
  refine ⟨fun s => ?_, by decide, by decide, by decide, by decide⟩
  unfold parse_time_to_seconds parse_time_amendedRef
  rcases pySplit s ':' with _ | ⟨p, _ | ⟨q, _ | ⟨r, _ | ⟨t, rest⟩⟩⟩⟩ <;> rfl

/-- Inverting a successful build: both fallible steps succeeded and the
result assembles their outputs. -/
theorem build_filter_some {a : OverlayArgs} {b : FilterBuild} (hb : build_filter a = some b) :
    ∃ parts1 input1 overlay_options,
      scaleStepOf a = some (parts1, input1) ∧
        overlay_options_of a = some overlay_options ∧
        b = mkBuild a parts1 input1 overlay_options := by
  unfold build_filter at hb
  rcases h1 : scaleStepOf a with _ | ⟨p, i⟩ <;> rw [h1] at hb
  · exact absurd hb (by simp)
  · rcases h2 : overlay_options_of a with _ | o <;> rw [h2] at hb
    · exact absurd hb (by simp)
    · injection hb with hb
      exact ⟨p, i, o, rfl, rfl, hb.symm⟩

/-- When both a start time and a duration are given and both parse, the
enable options are the gte clause followed by the between clause. -/
theorem overlay_options_of_both {a : OverlayArgs} {st du : Dec}
    (hs : truthy a.start_time = true) (hd : truthy a.duration = true)
    (hps : parse_time_to_seconds (a.start_time.getD "") = some st)
    (hpd : parse_time_to_seconds (a.duration.getD "") = some du) :
    overlay_options_of a =
      some ["enable='gte(t," ++ st.repr ++ ")'",
        "enable='between(t," ++ st.repr ++ "," ++ (st.add du).repr ++ ")'"] := by
  simp [overlay_options_of, hs, hd, hps, hpd]

/-- C1 counterexample: with start time 00:00:10 and duration 00:00:30 the
final overlay segment carries two separate enable clauses — the start-only
gte clause is appended and then kept, not replaced — so it does not contain
exactly one between clause. -/
theorem overlay_enable_not_single_clause :
    (build_filter ⟨"top-right", none, ⟨1, 0⟩, 10, 10, some "00:00:10", some "00:00:30"⟩).map
        FilterBuild.overlay_options =
      some ["enable='gte(t,10.0)'", "enable='between(t,10.0,40.0)'"] ∧
    (build_filter ⟨"top-right", none, ⟨1, 0⟩, 10, 10, some "00:00:10", some "00:00:30"⟩).map
        FilterBuild.overlay_filter =
      some ("[0:v][1:v]overlay=main_w-overlay_w-10:10:" ++
        "enable='gte(t,10.0)':enable='between(t,10.0,40.0)'") := by
  constructor <;> decide

/-- C1 (amended): whenever both a start time and a duration are given, the
produced final overlay segment contains two time-gate enable clauses, the
start-only gte clause followed by the between clause over the window
[start, start+duration], joined by colons onto the overlay segment, which is
the last segment of the graph. -/
theorem overlay_enable_clauses (a : OverlayArgs) (st du : Dec) (b : FilterBuild)
    (hs : truthy a.start_time = true) (hd : truthy a.duration = true)
    (hps : parse_time_to_seconds (a.start_time.getD "") = some st)
    (hpd : parse_time_to_seconds (a.duration.getD "") = some du)
    (hb : build_filter a = some b) :
    b.overlay_options =
        ["enable='gte(t," ++ st.repr ++ ")'",
          "enable='between(t," ++ st.repr ++ "," ++ (st.add du).repr ++ ")'"] ∧
      b.overlay_filter =
        "[0:v]" ++ b.overlay_input ++ "overlay=" ++ b.position_filter ++ ":" ++
          joinSep ":" b.overlay_options ∧
      b.filter_parts.getLast? = some b.overlay_filter := by
  obtain ⟨p, i, o, h1, h2, rfl⟩ := build_filter_some hb
  rw [overlay_options_of_both hs hd hps hpd] at h2
  injection h2 with h2
  subst h2
  exact ⟨rfl, rfl, List.getLast?_concat _⟩

/-- C1 witness: the amended theorem applied to the concrete specification
with start time 00:00:10 and duration 00:00:30, whose overlay options are
the gte clause at 10.0 seconds and the between clause over [10.0, 40.0]. -/
theorem overlay_enable_clauses_witness :
    (FilterBuild.mk
        ["[0:v][1:v]overlay=main_w-overlay_w-10:10:enable='gte(t,10.0)':enable='between(t,10.0,40.0)'"]
        "[1:v]" "main_w-overlay_w-10:10"
        ["enable='gte(t,10.0)'", "enable='between(t,10.0,40.0)'"]
        "[0:v][1:v]overlay=main_w-overlay_w-10:10:enable='gte(t,10.0)':enable='between(t,10.0,40.0)'").overlay_options =
      ["enable='gte(t," ++ Dec.repr ⟨10, 0⟩ ++ ")'",
        "enable='between(t," ++ Dec.repr ⟨10, 0⟩ ++ "," ++ Dec.repr (Dec.add ⟨10, 0⟩ ⟨30, 0⟩) ++ ")'"] :=
  (overlay_enable_clauses
    ⟨"top-right", none, ⟨1, 0⟩, 10, 10, some "00:00:10", some "00:00:30"⟩ ⟨10, 0⟩ ⟨30, 0⟩
    (FilterBuild.mk
      ["[0:v][1:v]overlay=main_w-overlay_w-10:10:enable='gte(t,10.0)':enable='between(t,10.0,40.0)'"]
      "[1:v]" "main_w-overlay_w-10:10"
      ["enable='gte(t,10.0)'", "enable='between(t,10.0,40.0)'"]
      "[0:v][1:v]overlay=main_w-overlay_w-10:10:enable='gte(t,10.0)':enable='between(t,10.0,40.0)'")
    (by decide) (by decide) (by decide) (by decide) (by decide)).1

/-- C3: with no start time, the filter graph built with a duration is
byte-identical to the graph built with the duration absent — a duration
without a start time has no effect on the output. -/
theorem duration_without_start_no_effect (a : OverlayArgs) (d : String)
    (h : a.start_time = none) :
    filter_complex { a with duration := some d } =
      filter_complex { a with duration := none } := by
  simp [filter_complex, build_filter, scaleStepOf, overlay_options_of, mkBuild, h, truthy]

/-- C3 witness: the theorem applied to a concrete specification with a
duration of 00:00:30 and no start time. -/
theorem duration_without_start_no_effect_witness :
    filter_complex ⟨"top-right", none, ⟨1, 0⟩, 10, 10, none, some "00:00:30"⟩ =
      filter_complex ⟨"top-right", none, ⟨1, 0⟩, 10, 10, none, none⟩ :=
  duration_without_start_no_effect ⟨"top-right", none, ⟨1, 0⟩, 10, 10, none, none⟩
    "00:00:30" rfl

/-- C4: with opacity strictly below 1.0, the graph contains an opacity
segment that reads from the scaled tag when a scale expression is present
and from the raw overlay input otherwise, converts to rgba and multiplies
the alpha channel by the opacity value, writing to the transparent tag; the
final overlay segment then reads from the transparent tag. -/
theorem opacity_segment_reads_current_tag (a : OverlayArgs) (b : FilterBuild)
    (hop : a.opacity.lt ⟨1, 0⟩) (hb : build_filter a = some b) :
    (truthy a.scale = true →
        "[scaled]format=rgba,colorchannelmixer=aa=" ++ a.opacity.repr ++ "[transparent]" ∈
          b.filter_parts) ∧
      (truthy a.scale = false →
        "[1:v]format=rgba,colorchannelmixer=aa=" ++ a.opacity.repr ++ "[transparent]" ∈
          b.filter_parts) ∧
      b.overlay_input = "[transparent]" ∧
      (∃ tail, b.overlay_filter = "[0:v]" ++ "[transparent]" ++ "overlay=" ++ tail) ∧
      b.filter_parts.getLast? = some b.overlay_filter := by
  obtain ⟨p, i, o, h1, h2, rfl⟩ := build_filter_some hb
  refine ⟨fun htr => ?_, fun htr => ?_, ?_, ?_, ?_⟩
  · simp [mkBuild, hop, htr]
  · simp [mkBuild, hop, htr]
  · cases htr : truthy a.scale <;> simp [mkBuild, hop, htr]
  · cases htr : truthy a.scale <;> cases o with
    | nil =>
      exact ⟨get_position_filter a.position a.offset_x a.offset_y,
        by simp [mkBuild, hop, htr, String.append_assoc]⟩
    | cons x xs =>
      exact ⟨get_position_filter a.position a.offset_x a.offset_y ++ ":" ++ joinSep ":" (x :: xs),
        by simp [mkBuild, hop, htr, String.append_assoc]⟩
  · exact List.getLast?_concat _

/-- C4 witness: the theorem applied to the concrete specification with
opacity 0.7 and no scale, whose opacity segment reads from the raw overlay
input tag. -/
theorem opacity_segment_reads_current_tag_witness :
    "[1:v]format=rgba,colorchannelmixer=aa=" ++ Dec.repr ⟨7, 1⟩ ++ "[transparent]" ∈
      (FilterBuild.mk
        ["[1:v]format=rgba,colorchannelmixer=aa=0.7[transparent]",
          "[0:v][transparent]overlay=main_w-overlay_w-10:10"]
        "[transparent]" "main_w-overlay_w-10:10" []
        "[0:v][transparent]overlay=main_w-overlay_w-10:10").filter_parts :=
  (opacity_segment_reads_current_tag ⟨"top-right", none, ⟨7, 1⟩, 10, 10, none, none⟩
    (FilterBuild.mk
      ["[1:v]format=rgba,colorchannelmixer=aa=0.7[transparent]",
        "[0:v][transparent]overlay=main_w-overlay_w-10:10"]
      "[transparent]" "main_w-overlay_w-10:10" []
      "[0:v][transparent]overlay=main_w-overlay_w-10:10")
    (by decide) (by decide)).2.1 rfl

/-- C5: position resolution returns exactly the specified coordinate pair
for each preset — top-left and custom use the offsets directly, top-right,
bottom-left and bottom-right subtract offset and overlay size from the far
edge, center halves the free space — and any unrecognized preset string
silently falls back to the top-right expression. -/
theorem position_resolution (ox oy : Int) :
    get_position_filter "top-left" ox oy = toString ox ++ ":" ++ toString oy ∧
      get_position_filter "top-right" ox oy =
        "main_w-overlay_w-" ++ toString ox ++ ":" ++ toString oy ∧
      get_position_filter "bottom-left" ox oy =
        toString ox ++ ":main_h-overlay_h-" ++ toString oy ∧
      get_position_filter "bottom-right" ox oy =
        "main_w-overlay_w-" ++ toString ox ++ ":main_h-overlay_h-" ++ toString oy ∧
      get_position_filter "center" ox oy = "(main_w-overlay_w)/2:(main_h-overlay_h)/2" ∧
      get_position_filter "custom" ox oy = toString ox ++ ":" ++ toString oy ∧
      (∀ p : String, p ≠ "top-left" → p ≠ "top-right" → p ≠ "bottom-left" →
        p ≠ "bottom-right" → p ≠ "center" → p ≠ "custom" →
        get_position_filter p ox oy =
          "main_w-overlay_w-" ++ toString ox ++ ":" ++ toString oy) := by
  refine ⟨?_, ?_, ?_, ?_, ?_, ?_, fun p h1 h2 h3 h4 h5 h6 => ?_⟩
  · simp [get_position_filter]
  · simp [get_position_filter]
  · simp [get_position_filter]
  · simp [get_position_filter]
  · simp [get_position_filter]
  · simp [get_position_filter]
  · simp [get_position_filter, h1, h2, h3, h4, h5, h6]

/-- C5 witness: the theorem's fallback clause applied to the unrecognized
preset bogus with offsets (10, 10), which resolves to the top-right
expression. -/
theorem position_resolution_witness :
    get_position_filter "bogus" 10 10 =
      "main_w-overlay_w-" ++ toString (10 : Int) ++ ":" ++ toString (10 : Int) :=
  (position_resolution 10 10).2.2.2.2.2.2 "bogus" (by decide) (by decide) (by decide)
    (by decide) (by decide) (by decide)

/-- The first filter part of a build whose scale step produced one segment,
whatever the opacity step adds after it. -/
theorem mkBuild_head (a : OverlayArgs) (x i : String) (o : List String) :
    (mkBuild a [x] i o).filter_parts.head? = some x := by
  by_cases hop : a.opacity.lt ⟨1, 0⟩ <;> cases htr : truthy a.scale <;>
    simp [mkBuild, hop, htr]

/-- C6: with a scale expression present, the first graph segment is a scale
segment reading from the overlay-image input and writing to the scaled tag;
a percentage string becomes the multiplicative expression with the factor
float(prefix)/100 on both dimensions, and any non-percentage string passes
through literally as the scale-filter argument. -/
theorem scale_segment_first (a : OverlayArgs) (s : String) (b : FilterBuild)
    (hsc : a.scale = some s) (hne : s.isEmpty = false)
    (hb : build_filter a = some b) :
    (∀ n : Dec, s.toList.getLast? = some '%' →
        pyFloat (String.mk s.toList.dropLast) = some n →
        b.filter_parts.head? =
          some ("[1:v]" ++ ("scale=iw*" ++ n.div100.repr ++ ":ih*" ++ n.div100.repr) ++
            "[scaled]")) ∧
      (s.toList.getLast? ≠ some '%' →
        b.filter_parts.head? = some ("[1:v]" ++ ("scale=" ++ s) ++ "[scaled]")) := by
  obtain ⟨p, i, o, h1, h2, rfl⟩ := build_filter_some hb
  simp only [scaleStepOf, hsc, hne, Bool.false_eq_true, if_false, reduceIte] at h1
  constructor
  · intro n hpc hpf
    have hpc' : s.data.getLast? = some '%' := hpc
    have hpf' : pyFloat ⟨s.data.dropLast⟩ = some n := hpf
    have hsf : scale_filter s =
        some ("scale=iw*" ++ n.div100.repr ++ ":ih*" ++ n.div100.repr) := by
      simp [scale_filter, hpc', hpf']
    rw [hsf, Option.map_some'] at h1
    injection h1 with h1
    rw [show p = ["[1:v]" ++ ("scale=iw*" ++ n.div100.repr ++ ":ih*" ++ n.div100.repr) ++
      "[scaled]"] from congrArg Prod.fst h1.symm]
    exact mkBuild_head a _ i o
  · intro hpc
    have hpc' : s.data.getLast? ≠ some '%' := hpc
    have hsf : scale_filter s = some ("scale=" ++ s) := by
      simp [scale_filter, hpc']
    rw [hsf, Option.map_some'] at h1
    injection h1 with h1
    rw [show p = ["[1:v]" ++ ("scale=" ++ s) ++ "[scaled]"] from congrArg Prod.fst h1.symm]
    exact mkBuild_head a _ i o

/-- C6 witness: the theorem applied to the concrete specification with scale
50 percent, whose first segment scales both dimensions by 0.5. -/
theorem scale_segment_first_witness :
    (FilterBuild.mk
        ["[1:v]scale=iw*0.5:ih*0.5[scaled]", "[0:v][scaled]overlay=main_w-overlay_w-10:10"]
        "[scaled]" "main_w-overlay_w-10:10" []
        "[0:v][scaled]overlay=main_w-overlay_w-10:10").filter_parts.head? =
      some ("[1:v]" ++ ("scale=iw*" ++ Dec.repr (Dec.div100 ⟨50, 0⟩) ++ ":ih*" ++
        Dec.repr (Dec.div100 ⟨50, 0⟩)) ++ "[scaled]") :=
  (scale_segment_first ⟨"top-right", some "50%", ⟨1, 0⟩, 10, 10, none, none⟩ "50%"
    (FilterBuild.mk
      ["[1:v]scale=iw*0.5:ih*0.5[scaled]", "[0:v][scaled]overlay=main_w-overlay_w-10:10"]
      "[scaled]" "main_w-overlay_w-10:10" []
      "[0:v][scaled]overlay=main_w-overlay_w-10:10")
    rfl (by decide) (by decide)).1 ⟨50, 0⟩ (by decide) (by decide)

/-- C7: file discovery fails with the not-found error when the directory
does not exist, the not-a-directory error when the path exists but is not a
directory, and the empty-result error when no entry is a regular file whose
lowercased suffix is .mp4 — in particular for directories holding only
non-matching files. -/
theorem discovery_errors (fp : String) (f : Folder) (sm : String) :
    (f.path_exists = false →
        find_mp4_files fp f sm = .error (.fileNotFound ("Folder does not exist: " ++ fp))) ∧
      (f.path_exists = true → f.is_dir = false →
        find_mp4_files fp f sm =
          .error (.notADirectory ("Path is not a directory: " ++ fp))) ∧
      (f.path_exists = true → f.is_dir = true →
        (∀ e ∈ f.entries, e.is_file = true → pyLower (pySuffix e.name) ≠ ".mp4") →
        find_mp4_files fp f sm =
          .error (.valueError ("No MP4 files found in folder: " ++ fp))) := by
  refine ⟨fun e1 => ?_, fun e1 e2 => ?_, fun e1 e2 e3 => ?_⟩
  · simp [find_mp4_files, e1]
  · simp [find_mp4_files, e1, e2]
  · have hf : f.entries.filter
        (fun e => e.is_file && pyLower (pySuffix e.name) == ".mp4") = [] := by
      rw [List.filter_eq_nil_iff]
      intro e he
      simp only [Bool.and_eq_true, beq_iff_eq, not_and]
      exact e3 e he
    simp [find_mp4_files, e1, e2, hf]

/-- C7 witness: the theorem's empty-result clause applied to an existing
directory whose only entry is a text file. -/
theorem discovery_errors_witness :
    find_mp4_files "d" ⟨true, true, [⟨"c.txt", true, 0, 0⟩]⟩ "alphabetical" =
      .error (.valueError ("No MP4 files found in folder: " ++ "d")) :=
  (discovery_errors "d" ⟨true, true, [⟨"c.txt", true, 0, 0⟩]⟩ "alphabetical").2.2 rfl rfl
    (by decide)

/-- C8: an opacity outside [0.0, 1.0] makes the overlay tool fail validation
and exit with code 1 with no child process spawned — not even the ffmpeg
presence probe runs. -/
theorem opacity_out_of_range_no_spawn (a : OverlayArgs) (env : OverlayEnv)
    (h : ¬(Dec.le ⟨0, 0⟩ a.opacity ∧ Dec.le a.opacity ⟨1, 0⟩)) :
    main_run a env = ([], 1) := by
  unfold main_run
  exact if_pos h

/-- C8 witness: the theorem applied to opacity 1.5 in an environment where
ffmpeg and both input files are present: still no spawn and exit code 1. -/
theorem opacity_out_of_range_no_spawn_witness :
    main_run ⟨"top-right", none, ⟨15, 1⟩, 10, 10, none, none⟩
      ⟨true, true, true, ".mp4", ".png", true⟩ = ([], 1) :=
  opacity_out_of_range_no_spawn ⟨"top-right", none, ⟨15, 1⟩, 10, 10, none, none⟩
    ⟨true, true, true, ".mp4", ".png", true⟩ (by decide)

/-- The two sequential passes of create_concat_file — first every backslash
to a slash, then every quote to backslash-quote — equal the single
character pass the claim describes. -/
theorem escape_after_replace (cs : List Char) :
    (cs.map fun c => if c == '\\' then '/' else c).flatMap
        (fun c => if c == '\'' then ['\\', c] else [c]) =
      cs.flatMap fun c =>
        if c == '\\' then ['/'] else if c == '\'' then ['\\', '\''] else [c] := by
  induction cs with
  | nil => rfl
  | cons c cs ih =>
    simp only [List.map_cons, List.flatMap_cons, ih]
    congr 1
    by_cases h1 : c = '\\'
    · subst h1; rfl
    · by_cases h2 : c = '\''
      · subst h2; rfl
      · simp [h1, h2]

/-- C9: the concat list content is exactly one line per file, in the given
order, each line wrapping the absolute path — every backslash replaced by a
forward slash and every single quote escaped with a backslash — in a quoted
file directive. -/
theorem concat_lines (paths : List String) :
    create_concat_content paths = joinSep "" (paths.map concatLineSpec) := by
  unfold create_concat_content
  congr 1
  apply List.map_congr_left
  intro p _
  unfold concatLineSpec escapeQuotes replaceChar
  exact congrArg (fun l => "file '" ++ String.mk l ++ "'\n") (escape_after_replace p.toList)

/-- C10: a sort method outside the three known ones makes discovery raise
the invalid-sort error rather than fall back to a default order, and that
check runs only after the existence, directory and non-empty checks, so
each of those errors still wins when it applies. -/
theorem invalid_sort_after_other_checks (fp : String) (f : Folder) (sm : String)
    (h1 : sm ≠ "alphabetical") (h2 : sm ≠ "date_created") (h3 : sm ≠ "date_modified") :
    (f.path_exists = true → f.is_dir = true →
        (f.entries.filter fun e => e.is_file && pyLower (pySuffix e.name) == ".mp4") ≠ [] →
        find_mp4_files fp f sm = .error (.valueError ("Invalid sort method: " ++ sm))) ∧
      (f.path_exists = true → f.is_dir = true →
        (f.entries.filter fun e => e.is_file && pyLower (pySuffix e.name) == ".mp4") = [] →
        find_mp4_files fp f sm =
          .error (.valueError ("No MP4 files found in folder: " ++ fp))) ∧
      (f.path_exists = false →
        find_mp4_files fp f sm = .error (.fileNotFound ("Folder does not exist: " ++ fp))) ∧
      (f.path_exists = true → f.is_dir = false →
        find_mp4_files fp f sm =
          .error (.notADirectory ("Path is not a directory: " ++ fp))) := by
  refine ⟨fun e1 e2 e3 => ?_, fun e1 e2 e3 => ?_, fun e1 => ?_, fun e1 e2 => ?_⟩
  · have hne : (f.entries.filter
        (fun e => e.is_file && pyLower (pySuffix e.name) == ".mp4")).isEmpty = false := by
      rcases hl : f.entries.filter
        (fun e => e.is_file && pyLower (pySuffix e.name) == ".mp4") with _ | ⟨x, xs⟩
      · exact absurd hl e3
      · rw [hl]
        rfl
    simp [find_mp4_files, e1, e2, hne, h1, h2, h3]
  · simp [find_mp4_files, e1, e2, e3, h1, h2, h3]
  · simp [find_mp4_files, e1]
  · simp [find_mp4_files, e1, e2]

/-- C10 witness: the theorem's first clause applied to a directory holding
one mp4 file and the unrecognized sort method bogus. -/
theorem invalid_sort_after_other_checks_witness :
    find_mp4_files "d" ⟨true, true, [⟨"a.mp4", true, 0, 0⟩]⟩ "bogus" =
      .error (.valueError ("Invalid sort method: " ++ "bogus")) :=
  (invalid_sort_after_other_checks "d" ⟨true, true, [⟨"a.mp4", true, 0, 0⟩]⟩ "bogus"
    (by decide) (by decide) (by decide)).1 rfl rfl (by decide)

end VideoUtils
